import Mathlib

/-!
Verification of the arcade flight dynamics integrator
(`src/script/physics/model/arcadeFlightModel.ts`, class `ArcadeFlightModel`).

The integrator is embedded shallowly over the rationals.  The three.js
vector/quaternion algebra used by the source is reproduced operation by
operation (including its zero-length guards).  Transcendental scalar
functions (`Math.exp`, `Math.sin`, `Math.cos`, `Math.acos`, `Math.sqrt`,
`Math.pow`, `Math.PI`) are not rational; they are supplied through a
`Prims` structure of uninterpreted rational functions, and theorems state
the exact properties of those functions they rely on as hypotheses (all of
which hold of the real functions).
-/

set_option maxHeartbeats 4000000
set_option maxRecDepth 200000

/-- Three-component vector of rationals, modelling `THREE.Vector3`
(component names `x`, `y`, `z`; `y` is altitude in world space). -/
structure Vec3 where
  x : ℚ
  y : ℚ
  z : ℚ
deriving DecidableEq, Repr

/-- Quaternion modelling `THREE.Quaternion` (components `x`, `y`, `z`, `w`). -/
structure Quat where
  x : ℚ
  y : ℚ
  z : ℚ
  w : ℚ
deriving DecidableEq, Repr

/-- The zero vector. -/
def vzero : Vec3 := ⟨0, 0, 0⟩

/-- The identity quaternion. -/
def qId : Quat := ⟨0, 0, 0, 1⟩

/-- Componentwise vector addition (`Vector3.add`). -/
def vadd (a b : Vec3) : Vec3 := ⟨a.x + b.x, a.y + b.y, a.z + b.z⟩

/-- Vector negation (`Vector3.negate`). -/
def vneg (a : Vec3) : Vec3 := ⟨-a.x, -a.y, -a.z⟩

/-- Scalar multiplication (`Vector3.multiplyScalar`). -/
def vsmul (a : Vec3) (k : ℚ) : Vec3 := ⟨a.x * k, a.y * k, a.z * k⟩

/-- Add a scaled vector (`Vector3.addScaledVector`). -/
def vaddScaled (a b : Vec3) (k : ℚ) : Vec3 := ⟨a.x + b.x * k, a.y + b.y * k, a.z + b.z * k⟩

/-- Dot product (`Vector3.dot`). -/
def vdot (a b : Vec3) : ℚ := a.x * b.x + a.y * b.y + a.z * b.z

/-- Cross product (`Vector3.cross`). -/
def vcross (a b : Vec3) : Vec3 :=
  ⟨a.y * b.z - a.z * b.y, a.z * b.x - a.x * b.z, a.x * b.y - a.y * b.x⟩

/-- Squared euclidean length (`Vector3.lengthSq`). -/
def vlengthSq (a : Vec3) : ℚ := a.x * a.x + a.y * a.y + a.z * a.z

/-- Overwrite the `y` component (`Vector3.setY`). -/
def vsetY (a : Vec3) (t : ℚ) : Vec3 := ⟨a.x, t, a.z⟩

/-- Componentwise division by a scalar (`Vector3.divideScalar`). -/
def vdivScalar (a : Vec3) (k : ℚ) : Vec3 := ⟨a.x / k, a.y / k, a.z / k⟩

/-- Uninterpreted scalar/vector primitives supplied by the JavaScript runtime
and the external three.js math library.  `exp`, `sin`, `cos`, `acos`, `sqrt`,
`pow` and `pi` stand for `Math.exp`, `Math.sin`, `Math.cos`, `Math.acos`,
`Math.sqrt`, `Math.pow` and `Math.PI`.  `bend` models the look-at /
rotate-towards construction of source lines 140-151 (spec section 4.1:
rotate the velocity direction toward `forward`, with `up` as the reference
plane, by the bounded angle passed as the last argument); `lookAtQ` models
`Object3D.lookAt` (the quaternion produced from an eye point and a target
point).  Both constructions live entirely in the external three.js library,
which the spec places out of scope as a leaf dependency. -/
structure Prims where
  exp : ℚ → ℚ
  sin : ℚ → ℚ
  cos : ℚ → ℚ
  acos : ℚ → ℚ
  sqrt : ℚ → ℚ
  pow : ℚ → ℚ → ℚ
  pi : ℚ
  bend : Vec3 → Vec3 → Vec3 → ℚ → Vec3
  lookAtQ : Vec3 → Vec3 → Quat

/-- Euclidean length (`Vector3.length`), via the runtime square root. -/
def vlength (P : Prims) (a : Vec3) : ℚ := P.sqrt (vlengthSq a)

/-- Normalization (`Vector3.normalize`): three.js divides by
`this.length() || 1`, so a vector whose computed length is `0` is returned
unchanged. -/
def vnormalize (P : Prims) (a : Vec3) : Vec3 :=
  let l := vlength P a
  if l = 0 then a else vdivScalar a l

/-- Projection onto a vector (`Vector3.projectOnVector`): returns zero when
the target has zero squared length. -/
def vprojectOnVector (a v : Vec3) : Vec3 :=
  let d := vlengthSq v
  if d = 0 then vzero else vsmul v (vdot v a / d)

/-- Projection onto the plane orthogonal to `n` (`Vector3.projectOnPlane`). -/
def vprojectOnPlane (a n : Vec3) : Vec3 :=
  let p := vprojectOnVector a n
  ⟨a.x - p.x, a.y - p.y, a.z - p.z⟩

/-- Angle between two vectors (`Vector3.angleTo`): `π/2` when either vector
has zero computed length, otherwise `acos` of the clamped cosine. -/
def vangleTo (P : Prims) (a b : Vec3) : ℚ :=
  let denom := P.sqrt (vlengthSq a * vlengthSq b)
  if denom = 0 then P.pi / 2
  else P.acos (max (-1) (min 1 (vdot a b / denom)))

/-- Hamilton product (`Quaternion.multiplyQuaternions a b`, i.e. `a * b`). -/
def quatMul (a b : Quat) : Quat :=
  ⟨a.x * b.w + a.w * b.x + a.y * b.z - a.z * b.y,
   a.y * b.w + a.w * b.y + a.z * b.x - a.x * b.z,
   a.z * b.w + a.w * b.z + a.x * b.y - a.y * b.x,
   a.w * b.w - a.x * b.x - a.y * b.y - a.z * b.z⟩

/-- Axis-angle quaternion (`Quaternion.setFromAxisAngle`): components are
`axis * sin(angle/2)` and `cos(angle/2)`. -/
def axisAngleQ (P : Prims) (axis : Vec3) (angle : ℚ) : Quat :=
  let s := P.sin (angle / 2)
  ⟨axis.x * s, axis.y * s, axis.z * s, P.cos (angle / 2)⟩

/-- Rotation of a vector by a quaternion (`Vector3.applyQuaternion`), using
the three.js formula `v + w*t + q×t` with `t = 2 q×v`. -/
def applyQ (q : Quat) (v : Vec3) : Vec3 :=
  let tx := 2 * (q.y * v.z - q.z * v.y)
  let ty := 2 * (q.z * v.x - q.x * v.z)
  let tz := 2 * (q.x * v.y - q.y * v.x)
  ⟨v.x + q.w * tx + q.y * tz - q.z * ty,
   v.y + q.w * ty + q.z * tx - q.x * tz,
   v.z + q.w * tz + q.x * ty - q.y * tx⟩

/-- Rotation about a local axis (`Object3D.rotateOnAxis`): the axis-angle
quaternion is multiplied on the right. -/
def rotateLocal (P : Prims) (q : Quat) (axis : Vec3) (angle : ℚ) : Quat :=
  quatMul q (axisAngleQ P axis angle)

/-- Rotation about a world axis (`Object3D.rotateOnWorldAxis`): the
axis-angle quaternion is multiplied on the left (premultiply). -/
def rotateWorld (P : Prims) (q : Quat) (axis : Vec3) (angle : ℚ) : Quat :=
  quatMul (axisAngleQ P axis angle) q

/-- Modelled from the spec: the body-frame canonical forward axis `FORWARD`
exported by `scene/scene.ts`, which is not under `src/`.  Chosen as `+z`:
the source treats `Object3D.getWorldDirection` (which returns the object's
world `+z` axis) interchangeably with the rotated `FORWARD` (lines 45 and
193), so `FORWARD = (0,0,1)` is the only value coherent with the source. -/
def FORWARD : Vec3 := ⟨0, 0, 1⟩

/-- Modelled from the spec: the world/body up axis `UP` from
`scene/scene.ts` (not under `src/`); `y` is altitude throughout. -/
def UPW : Vec3 := ⟨0, 1, 0⟩

/-- Modelled from the spec: the body-frame right axis `RIGHT` from
`scene/scene.ts` (not under `src/`), the `x` axis. -/
def RIGHTW : Vec3 := ⟨1, 0, 0⟩

/-- World direction of an object (`Object3D.getWorldDirection`): the
normalized image of `(0,0,1)` under the orientation. -/
def worldDir (P : Prims) (q : Quat) : Vec3 := vnormalize P (applyQ q ⟨0, 0, 1⟩)

/-- Modelled from the spec: `clamp` from `utils/math.ts` (not under `src/`),
the standard `max(lo, min(hi, x))` clamp. -/
def clampQ (x lo hi : ℚ) : ℚ := max lo (min hi x)

/-- Modelled from the spec: `easeOutCirc` from `utils/math.ts` (not under
`src/`), the standard circular ease-out curve `sqrt(1 - (x-1)^2)`. -/
def easeOutCirc (P : Prims) (x : ℚ) : ℚ := P.sqrt (1 - (x - 1) ^ 2)

/-- Modelled from the spec: the near-zero test `isZero` from
`utils/math.ts` (not under `src/`): true when the magnitude is below the
library epsilon, carried in the configuration. -/
def isZero (eps x : ℚ) : Prop := |x| < eps

instance (eps x : ℚ) : Decidable (isZero eps x) := by unfold isZero; infer_instance

/-- Modelled from the spec: scalar round-toward-zero from `utils/math.ts`
(not under `src/`): snap a component to exactly `0` when its magnitude is
below `eps` (spec glossary: "snapping near-zero vector components to
exactly zero"). -/
def rz (eps c : ℚ) : ℚ := if |c| < eps then 0 else c

/-- Modelled from the spec: `roundToZero` on vectors from `utils/math.ts`
(not under `src/`), applied per component. -/
def roundToZero (eps : ℚ) (v : Vec3) : Vec3 := ⟨rz eps v.x, rz eps v.y, rz eps v.z⟩

/-- Tuning constants.  `turningRate` through `cd` are module-level constants
of `arcadeFlightModel.ts` itself and are fixed below as literals; the fields
of this structure model the constants imported from `defs.ts` and the
`utils/math.ts` epsilons, which are not under `src/` (spec section 3:
"Constants/configuration (immutable, process-wide, supplied at
construction): ... pitch/roll/yaw rates, ground-clearance altitude, world
half-size").  `halfSize` stands for `2.5 * TERRAIN_SCALE *
TERRAIN_MODEL_SIZE`; `epsilon` is the `isZero` threshold and `roundEps` the
default `roundToZero` epsilon. -/
structure Config where
  rollRate : ℚ
  pitchRate : ℚ
  yawRate : ℚ
  groundClearance : ℚ
  halfSize : ℚ
  epsilon : ℚ
  roundEps : ℚ

/-- Source constant `TURNING_RATE = Math.PI * 1.5` (rad/s). -/
def TURNING_RATE (P : Prims) : ℚ := P.pi * 1.5

/-- Source constant `STALL_RATE = Math.PI / 6` (rad/s). -/
def STALL_RATE (P : Prims) : ℚ := P.pi / 6

/-- Source constant `INDUCED_DRAG_FACTOR = 10.0`. -/
def INDUCED_DRAG_FACTOR : ℚ := 10

/-- Source constant `ROLL_DRAG_FACTOR = 0.05`. -/
def ROLL_DRAG_FACTOR : ℚ := 0.05

/-- Source constant `GROUND_FRICTION_KINETIC = 0.15`. -/
def GROUND_FRICTION_KINETIC : ℚ := 0.15

/-- Source constant `GROUND_FRICTION_STATIC = 0.3`. -/
def GROUND_FRICTION_STATIC : ℚ := 0.3

/-- Source constant `MAX_THRUST = 20` (m/s^2). -/
def MAX_THRUST : ℚ := 20

/-- Source constant `DRY_MASS = 20000` (kg). -/
def DRY_MASS : ℚ := 20000

/-- Source constant `WING_AREA = 78` (m^2). -/
def WING_AREA : ℚ := 78

/-- Source constant `GROUND_AIR_DENSITY = 1.225` (kg/m^3). -/
def GROUND_AIR_DENSITY : ℚ := 1.225

/-- Source constant `GRAVITY = 9.8` (m/s^2). -/
def GRAVITY : ℚ := 9.8

/-- Source constant `CD = 0.15`. -/
def CD : ℚ := 0.15

/-- Aircraft state at a tick boundary.  `q`, `pos` come from the rigid-body
transform (`this.obj.quaternion` / `this.obj.position`); `vel`, `roll`,
`pitch`, `yaw`, `throttle`, `landed` are the fields inherited from the
`FlightModel` base class (`flightModel.ts`, not under `src/`; modelled from
the spec data model: ControlInputs `roll, pitch, yaw ∈ [-1,1]`, `throttle ∈
[0,1]`, RigidBodyState `velocity`, FlightState `landed`); `stall` is the
private field of `ArcadeFlightModel` itself. -/
structure State where
  q : Quat
  pos : Vec3
  vel : Vec3
  stall : ℚ
  landed : Bool
  roll : ℚ
  pitch : ℚ
  yaw : ℚ
  throttle : ℚ
deriving DecidableEq, Repr

/-- Tick-start forward basis vector (source line 45:
`FORWARD.applyQuaternion(this.obj.quaternion)`). -/
def forwardV (s : State) : Vec3 := applyQ s.q FORWARD

/-- Tick-start up basis vector (source line 46). -/
def upV (s : State) : Vec3 := applyQ s.q UPW

/-- Tick-start right basis vector (source line 47). -/
def rightV (s : State) : Vec3 := applyQ s.q RIGHTW

/-- Horizontal projection of forward (source line 49: `copy(forward).setY(0)`). -/
def prjForwardV (s : State) : Vec3 := vsetY (forwardV s) 0

/-- Normalized velocity (source line 50). -/
def velocityUnitV (P : Prims) (s : State) : Vec3 := vnormalize P s.vel

/-- Air density (source line 52: `GROUND_AIR_DENSITY * exp(-y / 8000)`). -/
def airDensityV (P : Prims) (s : State) : ℚ :=
  GROUND_AIR_DENSITY * P.exp (-s.pos.y / 8000)

/-- Speed (source line 53: `velocity.length()`). -/
def speedV (P : Prims) (s : State) : ℚ := vlength P s.vel

/-- Velocity direction projected on the wing plane (source line 55). -/
def rightPrjVelocityV (P : Prims) (s : State) : Vec3 :=
  vprojectOnPlane (velocityUnitV P s) (rightV s)

/-- Signed angle of attack (source lines 56-58). -/
def aoaV (P : Prims) (s : State) : ℚ :=
  let rpv := rightPrjVelocityV P s
  let sgn : ℚ := if vdot (vcross rpv (forwardV s)) (rightV s) > 0 then -1 else 1
  sgn * vangleTo P rpv (forwardV s)

/-- Orientation after the roll control sub-step (source lines 62-64). -/
def qAfterRoll (P : Prims) (cfg : Config) (dt : ℚ) (s : State) : Quat :=
  if ¬ isZero cfg.epsilon s.roll ∧ s.landed = false then
    rotateLocal P s.q ⟨0, 0, 1⟩ (s.roll * cfg.rollRate * dt)
  else s.q

/-- Orientation after the pitch control sub-step (source lines 67-76):
rotation about the local `x` axis by `-pitch * PITCH_RATE * delta`, gated on
a non-near-zero pitch input, not (landed and pitch negative), and
`stall < 0 ∨ (pitch < 0 ∧ up.y > 0) ∨ (pitch > 0 ∧ up.y < 0)`. -/
def qAfterPitch (P : Prims) (cfg : Config) (dt : ℚ) (s : State) : Quat :=
  if ¬ isZero cfg.epsilon s.pitch ∧ ¬ (s.landed = true ∧ s.pitch < 0) ∧
      (s.stall < 0 ∨ (s.pitch < 0 ∧ (upV s).y > 0) ∨ (s.pitch > 0 ∧ (upV s).y < 0)) then
    rotateLocal P (qAfterRoll P cfg dt s) ⟨1, 0, 0⟩ (-s.pitch * cfg.pitchRate * dt)
  else qAfterRoll P cfg dt s

/-- Orientation after the manual yaw sub-step (source lines 79-81). -/
def qAfterYaw (P : Prims) (cfg : Config) (dt : ℚ) (s : State) : Quat :=
  if ¬ isZero cfg.epsilon s.yaw ∧ ¬ isZero cfg.epsilon (speedV P s) then
    rotateLocal P (qAfterPitch P cfg dt s) ⟨0, 1, 0⟩ (-s.yaw * cfg.yawRate * dt)
  else qAfterPitch P cfg dt s

/-- Bank indicator for the automatic coordinated yaw (source line 85:
`copy(up).projectOnPlane(prjForward).setY(0)`). -/
def prjUpV (s : State) : Vec3 := vsetY (vprojectOnPlane (upV s) (prjForwardV s)) 0

/-- Sign of the automatic yaw (source line 86). -/
def autoYawSignV (s : State) : ℚ :=
  if (prjForwardV s).x * (prjUpV s).z - (prjForwardV s).z * (prjUpV s).x > 0 then -1 else 1

/-- Angle of the automatic coordinated yaw (source line 87):
`sign * |prjUp| * |prjUp| * |prjForward| * 2 * YAW_RATE * delta`. -/
def autoYawAngleV (P : Prims) (cfg : Config) (dt : ℚ) (s : State) : ℚ :=
  autoYawSignV s * vlength P (prjUpV s) * vlength P (prjUpV s) *
    vlength P (prjForwardV s) * 2 * cfg.yawRate * dt

/-- Orientation after the automatic coordinated yaw (source lines 84-88):
world-axis rotation about `UP`, applied whenever `-0.99 < forward.y < 0.99`
with no landed or speed guard. -/
def qAfterAutoYaw (P : Prims) (cfg : Config) (dt : ℚ) (s : State) : Quat :=
  if -0.99 < (forwardV s).y ∧ (forwardV s).y < 0.99 then
    rotateWorld P (qAfterYaw P cfg dt s) UPW (autoYawAngleV P cfg dt s)
  else qAfterYaw P cfg dt s

/-- Orientation after the automatic nose-down stall recovery (source lines
91-97). -/
def qAfterRecovery (P : Prims) (cfg : Config) (dt : ℚ) (s : State) : Quat :=
  if s.stall ≥ 0 ∧ s.landed = false then
    if (forwardV s).y > -0.8 then
      rotateWorld P (qAfterAutoYaw P cfg dt s)
        (vnormalize P (vcross (forwardV s) (prjForwardV s)))
        (STALL_RATE P * dt * (if (forwardV s).y > 0 then 1 else -1))
    else qAfterAutoYaw P cfg dt s
  else qAfterAutoYaw P cfg dt s

/-- Thrust force (source line 100). -/
def thrustV (P : Prims) (cfg : Config) (s : State) : Vec3 :=
  roundToZero cfg.roundEps
    (vsmul (forwardV s) (airDensityV P s * MAX_THRUST * s.throttle * DRY_MASS))

/-- Drag force (source lines 103-115). -/
def dragV (P : Prims) (cfg : Config) (s : State) : Vec3 :=
  let arcadeInducedDrag := vdot (forwardV s) (velocityUnitV P s)
  let liftInducedDrag := 1 - P.cos (2 * aoaV P s)
  let rollDrag := |(rightV s).y|
  roundToZero cfg.roundEps
    (vsmul (vneg (velocityUnitV P s))
      (P.pow (0.5 * (CD + liftInducedDrag) * airDensityV P s * speedV P s * speedV P s * WING_AREA)
        (1 + INDUCED_DRAG_FACTOR * (1 - arcadeInducedDrag) + ROLL_DRAG_FACTOR * rollDrag)))

/-- Angle-of-attack lift contribution (source line 118). -/
def aoaLiftV (P : Prims) (s : State) : ℚ :=
  0.2 * (if aoaV P s < P.pi / 8 ∨ aoaV P s > 7 * P.pi / 8
         then P.sin (6 * aoaV P s) else P.sin (2 * aoaV P s))

/-- Reference lift factor (source line 119). -/
def minLiftFactor : ℚ := 2 * (0.75 * 0.75 + 0.75) * GROUND_AIR_DENSITY

/-- Lift factor (source line 122). -/
def liftFactorV (P : Prims) (s : State) : ℚ :=
  2 * (speedV P s / 256) *
    ((-0.5 * (forwardV s).y + 1.5) * (-0.5 * |(rightV s).y| + 1.5) +
      (-0.5 * |(rightV s).y| + 1.5)) * airDensityV P s

/-- Stall index computed by the force model (source line 123), before any
ground-contact override. -/
def stallMidV (P : Prims) (s : State) : ℚ :=
  -(clampQ (liftFactorV P s / minLiftFactor + aoaLiftV P s * (1 - |(rightV s).y|) - 1) (-1) 1)

/-- Weight force (source lines 126-133). -/
def weightV (P : Prims) (s : State) : Vec3 :=
  let weightFwdFactor := -(forwardV s).y
  let weightDownFactor :=
    -(easeOutCirc P (1 - clampQ ((speedV P s / 256) * (1 - |(forwardV s).y| * (1 - |(rightV s).y|))) 0 1))
  vsmul (vaddScaled (vsmul UPW weightDownFactor) (forwardV s) weightFwdFactor)
    (DRY_MASS * GRAVITY)

/-- Velocity after the arcade velocity-direction bending (source lines
136-153): on the ground the velocity snaps to `forward * speed`; airborne
the unit direction is rotated toward `forward` by the bounded angle
`alpha * TURNING_RATE * delta` (the look-at / rotate-towards construction,
modelled by the external primitive `Prims.bend`). -/
def velAfterBendV (P : Prims) (cfg : Config) (dt : ℚ) (s : State) : Vec3 :=
  if ¬ isZero cfg.epsilon (speedV P s) then
    if s.landed = true then vsmul (forwardV s) (speedV P s)
    else
      vsmul (P.bend (velocityUnitV P s) (forwardV s) (upV s)
              (vangleTo P (velocityUnitV P s) (forwardV s) * TURNING_RATE P * dt))
        (speedV P s)
  else s.vel

/-- Combined aerodynamic force (source line 156). -/
def forcesV (P : Prims) (cfg : Config) (s : State) : Vec3 :=
  vadd (vadd (thrustV P cfg s) (dragV P cfg s)) (weightV P s)

/-- Ground friction force (source lines 159-174): static friction exactly
cancels the horizontal force when at (near) rest below the static
threshold, otherwise kinetic friction opposes the horizontal velocity
direction; zero when airborne. -/
def frictionV (P : Prims) (cfg : Config) (s : State) : Vec3 :=
  if s.landed = true then
    let prjForces := vsetY (forcesV P cfg s) 0
    if isZero cfg.epsilon (speedV P s) ∧
        vlength P prjForces < GROUND_FRICTION_STATIC * (DRY_MASS * GRAVITY) then
      roundToZero cfg.roundEps (vneg prjForces)
    else
      roundToZero cfg.roundEps
        (vsmul (vnormalize P (vneg (vsetY (velocityUnitV P s) 0)))
          (GROUND_FRICTION_KINETIC * (DRY_MASS * GRAVITY)))
  else vzero

/-- Acceleration (source line 177). -/
def accelV (P : Prims) (cfg : Config) (s : State) : Vec3 :=
  roundToZero cfg.roundEps
    (vdivScalar (vadd (forcesV P cfg s) (frictionV P cfg s)) DRY_MASS)

/-- Velocity after the Euler step (source line 178). -/
def vel1V (P : Prims) (cfg : Config) (dt : ℚ) (s : State) : Vec3 :=
  vaddScaled (velAfterBendV P cfg dt s) (accelV P cfg s) dt

/-- Velocity after the landed downward-velocity cut (source lines 179-181). -/
def vel2V (P : Prims) (cfg : Config) (dt : ℚ) (s : State) : Vec3 :=
  if s.landed = true ∧ (vel1V P cfg dt s).y < 0 then vsetY (vel1V P cfg dt s) 0
  else vel1V P cfg dt s

/-- Velocity after the in-place round toward zero of source line 184
(epsilon `0.01` under power, `0.1` at idle). -/
def vel3V (P : Prims) (cfg : Config) (dt : ℚ) (s : State) : Vec3 :=
  roundToZero (if s.throttle > 0 then 0.01 else 0.1) (vel2V P cfg dt s)

/-- Position after the position update of source line 184, before ground
clamping and wrapping. -/
def posMidV (P : Prims) (cfg : Config) (dt : ℚ) (s : State) : Vec3 :=
  vaddScaled s.pos (vel3V P cfg dt s) dt

/-- Landed flag after the altitude check of source lines 185-187 (cleared
when strictly above the ground clearance, otherwise retained). -/
def landedMidV (P : Prims) (cfg : Config) (dt : ℚ) (s : State) : Bool :=
  if (posMidV P cfg dt s).y > cfg.groundClearance then false else s.landed

/-- Toroidal wrap of one coordinate (source lines 205-206 resp. 207-208):
the two ifs are sequential, exactly as in the source. -/
def wrapQ (H t : ℚ) : ℚ :=
  let t1 := if t > H then -H else t
  if t1 < -H then H else t1

/-- Toroidal world wrap (source lines 204-208), independent per axis. -/
def wrapPos (cfg : Config) (p : Vec3) : Vec3 :=
  ⟨wrapQ cfg.halfSize p.x, p.y, wrapQ cfg.halfSize p.z⟩

/-- One tick of `ArcadeFlightModel.step(delta)` (source lines 43-209),
assembled from the stages above.  The ground branch (source lines 190-201)
clamps the altitude to the clearance, levels the heading via
`Object3D.lookAt` when the world direction points down, zeroes the vertical
velocity, forces `stall = -1` and sets `landed`. -/
def step (P : Prims) (cfg : Config) (dt : ℚ) (s : State) : State :=
  if (posMidV P cfg dt s).y < cfg.groundClearance then
    let pm := posMidV P cfg dt s
    let pc : Vec3 := ⟨pm.x, cfg.groundClearance, pm.z⟩
    let d := worldDir P (qAfterRecovery P cfg dt s)
    { s with
      q := if d.y < 0 then P.lookAtQ pc (vadd (vsetY d 0) pc) else qAfterRecovery P cfg dt s,
      pos := wrapPos cfg pc,
      vel := vsetY (vel3V P cfg dt s) 0,
      stall := -1,
      landed := true }
  else
    { s with
      q := qAfterRecovery P cfg dt s,
      pos := wrapPos cfg (posMidV P cfg dt s),
      vel := vel3V P cfg dt s,
      stall := stallMidV P s,
      landed := landedMidV P cfg dt s }

/-- Accessor `getStallStatus()` (source lines 211-213). -/
def getStallStatus (s : State) : ℚ := s.stall

/-- Newton iteration for the integer square root, structurally recursive on
a fuel argument so that kernel reduction can evaluate it. -/
def isqrtGo (n : Nat) : Nat → Nat → Nat
  | 0, g => g
  | fuel + 1, g =>
    let next := (g + n / g) / 2
    if next < g then isqrtGo n fuel next else g

/-- Integer square root (floor), exact for every argument below `2 ^ 256`. -/
def isqrt (n : Nat) : Nat := if n ≤ 1 then n else isqrtGo n 256 (n / 2)

/-- Exact square root of rationals that are squares of rationals, `0`
elsewhere.  It agrees with the real square root on every value at which the
concrete evaluations below depend on the result. -/
def sqrtQ (x : ℚ) : ℚ :=
  if 0 ≤ x ∧ (isqrt x.num.toNat * isqrt x.num.toNat = x.num.toNat) ∧
      (isqrt x.den * isqrt x.den = x.den) then
    (isqrt x.num.toNat : ℚ) / (isqrt x.den : ℚ)
  else 0

/-- Sample interpretation of the primitives used to evaluate the integrator
at concrete inputs: square roots are exact on perfect squares, `pow` is
exact at exponent `1`, and the transcendental functions take their values
at the arguments the concrete runs reach (`sin 0 = 0`, `cos 0 = 1`,
`acos 1 = 0`, `sin x ∈ [-1,1]`). -/
def mockPrims : Prims where
  exp := fun _ => 1
  sin := fun _ => 0
  cos := fun _ => 1
  acos := fun _ => 0
  sqrt := sqrtQ
  pow := fun b e => if e = 1 then b else 0
  pi := 3
  bend := fun v _ _ _ => v
  lookAtQ := fun _ _ => qId

/-- Variant of `mockPrims` whose sine and cosine at `1/2` take the values of
the real functions to three decimal places (`sin 0.5 ≈ 0.479`,
`cos 0.5 ≈ 0.878`), used to evaluate a pitch rotation by angle `1`. -/
def mockPrimsPitch : Prims where
  exp := fun _ => 1
  sin := fun x => if x = 1/2 then 479/1000 else 0
  cos := fun x => if x = 1/2 then 878/1000 else 1
  acos := fun _ => 0
  sqrt := sqrtQ
  pow := fun b e => if e = 1 then b else 0
  pi := 3
  bend := fun v _ _ _ => v
  lookAtQ := fun _ _ => qId

/-- Sample configuration for concrete evaluations: unit control rates,
ground clearance `3/2`, world half-size `1000000`, near-zero epsilon
`1/1000` and round-to-zero epsilon `1/10000`. -/
def cfgC : Config where
  rollRate := 1
  pitchRate := 1
  yawRate := 1
  groundClearance := 3/2
  halfSize := 1000000
  epsilon := 1/1000
  roundEps := 1/10000

/-- Position at the end of the tick before the world wrap: the post-update
position with the altitude clamped to the ground clearance by the branch of
source lines 190-201 when it resolved below it. -/
def posPreWrapV (P : Prims) (cfg : Config) (dt : ℚ) (s : State) : Vec3 :=
  if (posMidV P cfg dt s).y < cfg.groundClearance then
    ⟨(posMidV P cfg dt s).x, cfg.groundClearance, (posMidV P cfg dt s).z⟩
  else posMidV P cfg dt s

/-- Velocity at the end of the tick (the world wrap never touches it): the
rounded velocity, with `y` zeroed by the ground branch when it fired. -/
def velFinalV (P : Prims) (cfg : Config) (dt : ℚ) (s : State) : Vec3 :=
  if (posMidV P cfg dt s).y < cfg.groundClearance then vsetY (vel3V P cfg dt s) 0
  else vel3V P cfg dt s

/-- Squared norm of a quaternion; the spec's data model keeps `orientation`
a unit quaternion, i.e. `qNormSq = 1`. -/
def qNormSq (q : Quat) : ℚ := q.x * q.x + q.y * q.y + q.z * q.z + q.w * q.w

/-- Airborne aircraft whose tick ends exactly at the ground-clearance
altitude: level attitude, speed 256 (which makes the weight force vanish),
zero throttle and controls, starting exactly at the clearance. -/
def sExactTouch : State := ⟨qId, ⟨0, 3/2, 0⟩, ⟨0, 0, 256⟩, -1, false, 0, 0, 0, 0⟩

/-- Airborne, stalling (`stall = 0`), nose 45.2 degrees above the horizon
and upright (rotation about the `x` axis by the rational rotation with
`sin = -120/169`, `cos = 119/169`), with a full pitch-up input
(`pitch = -1` in the spec's sign convention). -/
def sPitchCex : State := ⟨⟨-5/13, 0, 0, 12/13⟩, ⟨0, 100, 0⟩, vzero, 0, false, 0, -1, 0, 0⟩

/-- Landed, at rest, idle, no control input, exactly at the clearance, but
with the nose pitched up by the rational rotation with `sin = 120/169`:
the residual horizontal force exceeds the static friction threshold. -/
def sNoseUpRest : State := ⟨⟨-5/13, 0, 0, 12/13⟩, ⟨0, 3/2, 0⟩, vzero, -1, true, 0, 0, 0, 0⟩

/-- Landed, level, at rest, idle, no control input, exactly at the
clearance: the reference rest state. -/
def sRest : State := ⟨qId, ⟨0, 3/2, 0⟩, vzero, 0, true, 0, 0, 0, 0⟩

/-- Airborne, level, zero velocity, high above the ground. -/
def sHover : State := ⟨qId, ⟨0, 100, 0⟩, vzero, -1, false, 0, 0, 0, 0⟩

/-- Airborne, level, zero velocity, at altitude `0`, below the clearance. -/
def sFalling : State := ⟨qId, ⟨0, 0, 0⟩, vzero, -1, false, 0, 0, 0, 0⟩

/-- Landed, banked (rotation about the `z` axis with `sin = 120/169`), at
rest with no control input. -/
def sBankedRest : State := ⟨⟨0, 0, 5/13, 12/13⟩, ⟨0, 3/2, 0⟩, vzero, -1, true, 0, 0, 0, 0⟩

/-- Airborne, level, at rest, far beyond the world half-size in `x`. -/
def sFarOut : State := ⟨qId, ⟨1000001, 100, 0⟩, vzero, -1, false, 0, 0, 0, 0⟩

theorem step_pos_eq (P : Prims) (cfg : Config) (dt : ℚ) (s : State) :
    (step P cfg dt s).pos = wrapPos cfg (posPreWrapV P cfg dt s) := by
  unfold step posPreWrapV
  split <;> rfl

theorem step_vel_eq (P : Prims) (cfg : Config) (dt : ℚ) (s : State) :
    (step P cfg dt s).vel = velFinalV P cfg dt s := by
  unfold step velFinalV
  split <;> rfl

theorem wrapPos_y (cfg : Config) (p : Vec3) : (wrapPos cfg p).y = p.y := rfl

/-- C5.  After every call to `step`, the stored stall value lies within
`[-1, 1]` (for every state, so in particular for all speeds, angles of
attack and attitudes), and `getStallStatus` returns exactly that stored
value; being a pure projection it has no side effects. -/
theorem c5_stall_bound_and_accessor (P : Prims) (cfg : Config) (dt : ℚ) (s : State) :
    -1 ≤ (step P cfg dt s).stall ∧ (step P cfg dt s).stall ≤ 1 ∧
      getStallStatus (step P cfg dt s) = (step P cfg dt s).stall := by
  refine ⟨?_, ?_, rfl⟩ <;>
  · unfold step
    split
    · norm_num
    · show _
      simp only [stallMidV, clampQ]
      have h1 : min 1 (liftFactorV P s / minLiftFactor +
          aoaLiftV P s * (1 - |(rightV s).y|) - 1) ≤ 1 := min_le_left _ _
      have h2 : (-1 : ℚ) ≤ max (-1) (min 1 (liftFactorV P s / minLiftFactor +
          aoaLiftV P s * (1 - |(rightV s).y|) - 1)) := le_max_left _ _
      have h3 : max (-1) (min 1 (liftFactorV P s / minLiftFactor +
          aoaLiftV P s * (1 - |(rightV s).y|) - 1)) ≤ 1 :=
        max_le (by norm_num) h1
      linarith

/-- C8.  A call to `step` only replaces the entity's own orientation,
position, velocity, stall index and landed flag: the control inputs stored
on the state are returned unchanged (the configuration and time step are
read-only parameters of the functional embedding). -/
theorem c8_frame_controls (P : Prims) (cfg : Config) (dt : ℚ) (s : State) :
    (step P cfg dt s).roll = s.roll ∧ (step P cfg dt s).pitch = s.pitch ∧
      (step P cfg dt s).yaw = s.yaw ∧ (step P cfg dt s).throttle = s.throttle := by
  unfold step
  split <;> exact ⟨rfl, rfl, rfl, rfl⟩

theorem wrapQ_gt (H t : ℚ) (h : H < t) : wrapQ H t = -H := by
  unfold wrapQ
  rw [if_pos h, if_neg (lt_irrefl (-H))]

theorem wrapQ_lt (H t : ℚ) (hH : 0 ≤ H) (h : t < -H) : wrapQ H t = H := by
  unfold wrapQ
  have h1 : ¬ (H < t) := by linarith
  rw [if_neg h1, if_pos h]

theorem wrapQ_mem (H t : ℚ) (hH : 0 ≤ H) : -H ≤ wrapQ H t ∧ wrapQ H t ≤ H := by
  unfold wrapQ
  by_cases h1 : H < t
  · rw [if_pos h1, if_neg (lt_irrefl (-H))]
    constructor <;> linarith
  · rw [if_neg h1]
    by_cases h2 : t < -H
    · rw [if_pos h2]
      constructor <;> linarith
    · rw [if_neg h2]
      constructor <;> linarith

/-- C2 (amended).  The landed flag at tick end is characterized by the
post-update altitude: strictly above the clearance clears it, strictly
below sets it (with the altitude clamped to the clearance), and a tick
resolving exactly at the clearance leaves the flag at its previous value
rather than forcing it true (source lines 185 and 191 both test strict
inequalities, so neither branch fires on equality). -/
theorem c2_landed_amended (P : Prims) (cfg : Config) (dt : ℚ) (s : State) :
    ((step P cfg dt s).landed =
      if cfg.groundClearance < (posMidV P cfg dt s).y then false
      else if (posMidV P cfg dt s).y < cfg.groundClearance then true
      else s.landed) ∧
    ((step P cfg dt s).pos.y =
      if (posMidV P cfg dt s).y < cfg.groundClearance then cfg.groundClearance
      else (posMidV P cfg dt s).y) := by
  unfold step
  by_cases h : (posMidV P cfg dt s).y < cfg.groundClearance
  · rw [if_pos h]
    refine ⟨?_, ?_⟩
    · rw [if_neg (lt_asymm h), if_pos h]
    · rw [if_pos h]
      rfl
  · rw [if_neg h]
    refine ⟨?_, ?_⟩
    · show landedMidV P cfg dt s = _
      unfold landedMidV
      by_cases h2 : cfg.groundClearance < (posMidV P cfg dt s).y
      · rw [if_pos h2, if_pos h2]
      · rw [if_neg h2, if_neg h2, if_neg h]
    · rw [if_neg h]
      rfl

/-- C2, counterexample to the claim as stated: a level airborne aircraft at
speed 256 (vanishing vertical force) starting exactly at the clearance ends
the tick with altitude exactly equal to the clearance, yet `landed` remains
false, contradicting "altitude exactly equal to the threshold must leave
landed true". -/
theorem c2_counterexample :
    (step mockPrims cfgC 1 sExactTouch).pos.y = cfgC.groundClearance ∧
    (step mockPrims cfgC 1 sExactTouch).landed = false :=
  of_decide_eq_true (by with_unfolding_all rfl)

/-- C3.  For every call to `step` from a well-formed state (the landed
invariant `landed → altitude = clearance`, which `step` itself establishes,
and a positive time step), if `landed` is true when the tick ends then the
vertical velocity is exactly zero: the ground branch zeroes it, and a
retained landed flag forces the post-update altitude back to the clearance,
which makes the integrated vertical velocity vanish. -/
theorem c3_landed_vertical_lock (P : Prims) (cfg : Config) (dt : ℚ) (s : State)
    (hdt : 0 < dt) (hinv : s.landed = true → s.pos.y = cfg.groundClearance) :
    (step P cfg dt s).landed = true → (step P cfg dt s).vel.y = 0 := by
  intro hl
  unfold step at hl ⊢
  by_cases h : (posMidV P cfg dt s).y < cfg.groundClearance
  · rw [if_pos h]
    rfl
  · rw [if_neg h] at hl ⊢
    have hL : landedMidV P cfg dt s = true := hl
    unfold landedMidV at hL
    by_cases h2 : cfg.groundClearance < (posMidV P cfg dt s).y
    · rw [if_pos h2] at hL
      cases hL
    · rw [if_neg h2] at hL
      have hy0 : s.pos.y = cfg.groundClearance := hinv hL
      have hym : (posMidV P cfg dt s).y = s.pos.y + (vel3V P cfg dt s).y * dt := rfl
      have heq : (posMidV P cfg dt s).y = cfg.groundClearance :=
        le_antisymm (not_lt.mp h2) (not_lt.mp h)
      have hz : (vel3V P cfg dt s).y * dt = 0 := by
        rw [hym, hy0] at heq
        linarith
      rcases mul_eq_zero.mp hz with hv | hdt0
      · exact hv
      · exact absurd hdt0 (ne_of_gt hdt)

/-- C3, witness at the landed rest state. -/
theorem c3_landed_vertical_lock_witness :
    (0 : ℚ) < 1 ∧ (sRest.landed = true → sRest.pos.y = cfgC.groundClearance) ∧
    (step mockPrims cfgC 1 sRest).vel.y = 0 := by
  refine ⟨by norm_num, fun _ => rfl, ?_⟩
  exact c3_landed_vertical_lock mockPrims cfgC 1 sRest (by norm_num) (fun _ => rfl)
    (of_decide_eq_true (by with_unfolding_all rfl))

/-- C6.  The world wrap at the end of every `step`: a pre-wrap coordinate
beyond `+halfSize` is set to exactly `-halfSize` and one below `-halfSize`
to exactly `+halfSize`, independently for `x` and `z`; the wrap leaves the
velocity untouched; and consequently both coordinates end the tick within
`[-halfSize, halfSize]`. -/
theorem c6_world_wrap (P : Prims) (cfg : Config) (dt : ℚ) (s : State)
    (hH : 0 ≤ cfg.halfSize) :
    ((posPreWrapV P cfg dt s).x > cfg.halfSize →
      (step P cfg dt s).pos.x = -cfg.halfSize) ∧
    ((posPreWrapV P cfg dt s).x < -cfg.halfSize →
      (step P cfg dt s).pos.x = cfg.halfSize) ∧
    ((posPreWrapV P cfg dt s).z > cfg.halfSize →
      (step P cfg dt s).pos.z = -cfg.halfSize) ∧
    ((posPreWrapV P cfg dt s).z < -cfg.halfSize →
      (step P cfg dt s).pos.z = cfg.halfSize) ∧
    (step P cfg dt s).vel = velFinalV P cfg dt s ∧
    -cfg.halfSize ≤ (step P cfg dt s).pos.x ∧ (step P cfg dt s).pos.x ≤ cfg.halfSize ∧
    -cfg.halfSize ≤ (step P cfg dt s).pos.z ∧ (step P cfg dt s).pos.z ≤ cfg.halfSize := by
  rw [step_pos_eq]
  have hx := wrapQ_mem cfg.halfSize (posPreWrapV P cfg dt s).x hH
  have hz := wrapQ_mem cfg.halfSize (posPreWrapV P cfg dt s).z hH
  exact ⟨fun h => wrapQ_gt _ _ h, fun h => wrapQ_lt _ _ hH h,
    fun h => wrapQ_gt _ _ h, fun h => wrapQ_lt _ _ hH h,
    step_vel_eq P cfg dt s, hx.1, hx.2, hz.1, hz.2⟩

/-- C6, witness: an aircraft beyond the east boundary is wrapped to exactly
the west boundary. -/
theorem c6_world_wrap_witness :
    (0 : ℚ) ≤ cfgC.halfSize ∧
    (posPreWrapV mockPrims cfgC 1 sFarOut).x > cfgC.halfSize ∧
    (step mockPrims cfgC 1 sFarOut).pos.x = -cfgC.halfSize := by
  refine ⟨of_decide_eq_true (by with_unfolding_all rfl),
    of_decide_eq_true (by with_unfolding_all rfl), ?_⟩
  exact (c6_world_wrap mockPrims cfgC 1 sFarOut
    (of_decide_eq_true (by with_unfolding_all rfl))).1
    (of_decide_eq_true (by with_unfolding_all rfl))

/-- C7.  A tick whose position update resolves the altitude strictly below
the clearance ends with the altitude exactly at the clearance, zero
vertical velocity, `stall = -1` and `landed = true`; and the heading is
releveled through `Object3D.lookAt` toward the horizontal projection of the
current world direction exactly when that direction points below the
horizon, the orientation being otherwise untouched by the ground branch. -/
theorem c7_ground_clamp (P : Prims) (cfg : Config) (dt : ℚ) (s : State)
    (hlt : (posMidV P cfg dt s).y < cfg.groundClearance) :
    (step P cfg dt s).pos.y = cfg.groundClearance ∧
    (step P cfg dt s).vel.y = 0 ∧
    (step P cfg dt s).stall = -1 ∧
    (step P cfg dt s).landed = true ∧
    ((worldDir P (qAfterRecovery P cfg dt s)).y < 0 →
      (step P cfg dt s).q =
        P.lookAtQ
          ⟨(posMidV P cfg dt s).x, cfg.groundClearance, (posMidV P cfg dt s).z⟩
          (vadd (vsetY (worldDir P (qAfterRecovery P cfg dt s)) 0)
            ⟨(posMidV P cfg dt s).x, cfg.groundClearance, (posMidV P cfg dt s).z⟩)) ∧
    (0 ≤ (worldDir P (qAfterRecovery P cfg dt s)).y →
      (step P cfg dt s).q = qAfterRecovery P cfg dt s) := by
  unfold step
  rw [if_pos hlt]
  refine ⟨rfl, rfl, rfl, rfl, ?_, ?_⟩
  · intro hd
    show (if (worldDir P (qAfterRecovery P cfg dt s)).y < 0 then _ else _) = _
    rw [if_pos hd]
  · intro hd
    show (if (worldDir P (qAfterRecovery P cfg dt s)).y < 0 then _ else _) = _
    rw [if_neg (not_lt.mpr hd)]

/-- C7, witness: a level aircraft free-falling through the ground plane is
clamped to the clearance, locked vertically, marked landed and stalled
reset. -/
theorem c7_ground_clamp_witness :
    (posMidV mockPrims cfgC 1 sFalling).y < cfgC.groundClearance ∧
    (step mockPrims cfgC 1 sFalling).pos.y = cfgC.groundClearance ∧
    (step mockPrims cfgC 1 sFalling).landed = true ∧
    (step mockPrims cfgC 1 sFalling).stall = -1 := by
  have h := c7_ground_clamp mockPrims cfgC 1 sFalling
    (of_decide_eq_true (by with_unfolding_all rfl))
  exact ⟨of_decide_eq_true (by with_unfolding_all rfl), h.1, h.2.2.2.1, h.2.2.1⟩

/-- Airborne, stalling, nose up and upright as in `sPitchCex`, but with a
full pitch-down input (`pitch = 1`, positive per the source comment "Can't
pitch down when landed" on the `pitch < 0` case). -/
def sPitchDown : State := ⟨⟨-5/13, 0, 0, 12/13⟩, ⟨0, 100, 0⟩, vzero, 0, false, 0, 1, 0, 0⟩

/-- C1 (amended).  The pitch sub-step rotates about the body right axis by
`-pitch * pitchRate * delta` exactly when the pitch input is not
near-zero, NOT (landed AND pitch < 0), and one of: not currently stalling
(`stall < 0`), `pitch < 0` while the cockpit points above the horizon
(`up.y > 0`), or `pitch > 0` while inverted (`up.y < 0`) — the gate reads
the up vector, not the nose direction, and pairs the pitch signs the
opposite way to the claim; in particular, when `stall ≥ 0` and the
aircraft is upright, a `pitch > 0` input leaves the orientation unchanged
by the pitch sub-step. -/
theorem c1_pitch_gate_amended (P : Prims) (cfg : Config) (dt : ℚ) (s : State) :
    ((¬ isZero cfg.epsilon s.pitch ∧ ¬ (s.landed = true ∧ s.pitch < 0) ∧
        (s.stall < 0 ∨ (s.pitch < 0 ∧ (upV s).y > 0) ∨ (s.pitch > 0 ∧ (upV s).y < 0))) →
      qAfterPitch P cfg dt s =
        rotateLocal P (qAfterRoll P cfg dt s) ⟨1, 0, 0⟩ (-s.pitch * cfg.pitchRate * dt)) ∧
    (¬ (¬ isZero cfg.epsilon s.pitch ∧ ¬ (s.landed = true ∧ s.pitch < 0) ∧
        (s.stall < 0 ∨ (s.pitch < 0 ∧ (upV s).y > 0) ∨ (s.pitch > 0 ∧ (upV s).y < 0))) →
      qAfterPitch P cfg dt s = qAfterRoll P cfg dt s) ∧
    (0 ≤ s.stall → 0 < (upV s).y → 0 < s.pitch →
      qAfterPitch P cfg dt s = qAfterRoll P cfg dt s) := by
  refine ⟨fun h => ?_, fun h => ?_, fun h1 h2 h3 => ?_⟩
  · unfold qAfterPitch
    rw [if_pos h]
  · unfold qAfterPitch
    rw [if_neg h]
  · unfold qAfterPitch
    rw [if_neg]
    rintro ⟨-, -, hc | ⟨hp, -⟩ | ⟨-, hu⟩⟩
    · linarith
    · linarith
    · linarith

/-- C1, witness: while stalling and upright, a pitch-down input is blocked
(the amended "in particular"). -/
theorem c1_pitch_gate_amended_witness :
    0 ≤ sPitchDown.stall ∧ 0 < (upV sPitchDown).y ∧ 0 < sPitchDown.pitch ∧
    qAfterPitch mockPrimsPitch cfgC 1 sPitchDown = qAfterRoll mockPrimsPitch cfgC 1 sPitchDown := by
  refine ⟨le_refl 0, of_decide_eq_true (by with_unfolding_all rfl), one_pos, ?_⟩
  exact (c1_pitch_gate_amended mockPrimsPitch cfgC 1 sPitchDown).2.2 (le_refl 0)
    (of_decide_eq_true (by with_unfolding_all rfl)) one_pos

/-- C1, counterexample to the claim as stated: stalling (`stall = 0`), nose
above the horizon (`forward.y > 0`), upright (`up.y > 0`), airborne, with a
pitch-up input (`pitch = -1 < 0` in the claim's own sign convention); the
claim's gate (not stalling, or pitching down with the nose above the
horizon, or pitching up with the nose below it) is false, so the claim
demands an unchanged orientation — yet the pitch sub-step rotates the
aircraft. -/
theorem c1_counterexample :
    0 ≤ sPitchCex.stall ∧ 0 < (forwardV sPitchCex).y ∧ 0 < (upV sPitchCex).y ∧
    sPitchCex.pitch < 0 ∧ sPitchCex.landed = false ∧
    ¬ (sPitchCex.stall < 0 ∨ (sPitchCex.pitch > 0 ∧ 0 < (forwardV sPitchCex).y) ∨
        (sPitchCex.pitch < 0 ∧ (forwardV sPitchCex).y < 0)) ∧
    qAfterPitch mockPrimsPitch cfgC 1 sPitchCex ≠ qAfterRoll mockPrimsPitch cfgC 1 sPitchCex :=
  of_decide_eq_true (by with_unfolding_all rfl)

/-- C10.  The automatic coordinated-turn yaw has no landed and no speed
guard: whenever `-0.99 < forward.y < 0.99` (and in particular for a
non-zero bank indicator), it applies the world-axis yaw by
`sign * |prjUp|^2 * |prjForward| * 2 * yawRate * delta` for every state —
the theorem holds with no hypothesis on `landed` or on the speed — whereas
manual roll is disabled when landed and manual yaw is disabled at
(near-)zero speed. -/
theorem c10_auto_yaw_ungated (P : Prims) (cfg : Config) (dt : ℚ) (s : State)
    (h1 : -0.99 < (forwardV s).y) (h2 : (forwardV s).y < 0.99)
    (h3 : prjUpV s ≠ vzero) :
    qAfterAutoYaw P cfg dt s =
      rotateWorld P (qAfterYaw P cfg dt s) UPW
        (autoYawSignV s * vlength P (prjUpV s) * vlength P (prjUpV s) *
          vlength P (prjForwardV s) * 2 * cfg.yawRate * dt) ∧
    (s.landed = true → qAfterRoll P cfg dt s = s.q) ∧
    (isZero cfg.epsilon (speedV P s) → qAfterYaw P cfg dt s = qAfterPitch P cfg dt s) := by
  refine ⟨?_, fun hl => ?_, fun hs => ?_⟩
  · unfold qAfterAutoYaw
    rw [if_pos ⟨h1, h2⟩]
    rfl
  · unfold qAfterRoll
    rw [if_neg]
    rintro ⟨-, hfalse⟩
    rw [hl] at hfalse
    exact Bool.noConfusion hfalse
  · unfold qAfterYaw
    rw [if_neg]
    rintro ⟨-, hns⟩
    exact hns hs

/-- C10, witness: a banked aircraft that is landed and at rest still
receives the automatic coordinated yaw. -/
theorem c10_auto_yaw_ungated_witness :
    sBankedRest.landed = true ∧ speedV mockPrims sBankedRest = 0 ∧
    prjUpV sBankedRest ≠ vzero ∧
    qAfterAutoYaw mockPrims cfgC 1 sBankedRest =
      rotateWorld mockPrims (qAfterYaw mockPrims cfgC 1 sBankedRest) UPW
        (autoYawSignV sBankedRest * vlength mockPrims (prjUpV sBankedRest) *
          vlength mockPrims (prjUpV sBankedRest) *
          vlength mockPrims (prjForwardV sBankedRest) * 2 * cfgC.yawRate * 1) := by
  refine ⟨rfl, of_decide_eq_true (by with_unfolding_all rfl),
    of_decide_eq_true (by with_unfolding_all rfl), ?_⟩
  exact (c10_auto_yaw_ungated mockPrims cfgC 1 sBankedRest
    (of_decide_eq_true (by with_unfolding_all rfl))
    (of_decide_eq_true (by with_unfolding_all rfl))
    (of_decide_eq_true (by with_unfolding_all rfl))).1

theorem rightV_y_eq (s : State) :
    (rightV s).y = 2 * (s.q.w * s.q.z + s.q.x * s.q.y) := by
  simp only [rightV, applyQ, RIGHTW]
  ring

theorem rightV_y_abs_le_one (s : State) (hq : qNormSq s.q = 1) :
    |(rightV s).y| ≤ 1 := by
  have hval := rightV_y_eq s
  unfold qNormSq at hq
  have hsq : ((rightV s).y) ^ 2 ≤ 1 := by
    rw [hval]
    nlinarith [hq,
      mul_nonneg
        (add_nonneg (sq_nonneg (s.q.w - s.q.z)) (sq_nonneg (s.q.x - s.q.y)))
        (add_nonneg (sq_nonneg (s.q.w + s.q.z)) (sq_nonneg (s.q.x + s.q.y)))]
  exact (sq_le_one_iff_abs_le_one ((rightV s).y)).mp hsq

/-- C9.  A tick beginning at exactly zero speed whose ground-clamp branch
does not fire ends with `stall ≥ 0.8` (for a unit orientation quaternion,
as the data model requires, and a sine bounded by one as the real sine
is): the lift factor vanishes with the speed and the angle-of-attack lift
contribution is bounded in magnitude by `0.2`, so the clamped expression
is at most `-0.8` and the negated stall at least `0.8`. -/
theorem c9_zero_speed_stall (P : Prims) (cfg : Config) (dt : ℚ) (s : State)
    (hq : qNormSq s.q = 1) (hsin : ∀ x, -1 ≤ P.sin x ∧ P.sin x ≤ 1)
    (hsp : speedV P s = 0)
    (hnc : ¬ (posMidV P cfg dt s).y < cfg.groundClearance) :
    0.8 ≤ (step P cfg dt s).stall := by
  have hstep : (step P cfg dt s).stall = stallMidV P s := by
    unfold step
    rw [if_neg hnc]
  rw [hstep]
  have hlf : liftFactorV P s = 0 := by
    unfold liftFactorV
    rw [hsp]
    ring
  have haoa : -(1/5 : ℚ) ≤ aoaLiftV P s ∧ aoaLiftV P s ≤ 1/5 := by
    unfold aoaLiftV
    constructor <;> split
    · obtain ⟨ha, hb⟩ := hsin (6 * aoaV P s)
      nlinarith
    · obtain ⟨ha, hb⟩ := hsin (2 * aoaV P s)
      nlinarith
    · obtain ⟨ha, hb⟩ := hsin (6 * aoaV P s)
      nlinarith
    · obtain ⟨ha, hb⟩ := hsin (2 * aoaV P s)
      nlinarith
  have hry : |(rightV s).y| ≤ 1 := rightV_y_abs_le_one s hq
  have hry0 : (0 : ℚ) ≤ |(rightV s).y| := abs_nonneg _
  unfold stallMidV clampQ
  rw [hlf, zero_div, zero_add]
  have hprod : aoaLiftV P s * (1 - |(rightV s).y|) ≤ 1/5 := by
    nlinarith [haoa.1, haoa.2]
  have harg : aoaLiftV P s * (1 - |(rightV s).y|) - 1 ≤ -(4/5) := by
    linarith
  have hmin : min 1 (aoaLiftV P s * (1 - |(rightV s).y|) - 1) =
      aoaLiftV P s * (1 - |(rightV s).y|) - 1 :=
    min_eq_right (by linarith)
  rw [hmin]
  have hmax : max (-1 : ℚ) (aoaLiftV P s * (1 - |(rightV s).y|) - 1) ≤ -(4/5) :=
    max_le (by norm_num) harg
  linarith

/-- C9, witness: a hovering (zero-speed) level aircraft high above the
ground is marked fully stalling after a tick. -/
theorem c9_zero_speed_stall_witness :
    qNormSq sHover.q = 1 ∧ speedV mockPrims sHover = 0 ∧
    ¬ (posMidV mockPrims cfgC 1 sHover).y < cfgC.groundClearance ∧
    (0.8 : ℚ) ≤ (step mockPrims cfgC 1 sHover).stall := by
  refine ⟨of_decide_eq_true (by with_unfolding_all rfl),
    of_decide_eq_true (by with_unfolding_all rfl),
    of_decide_eq_true (by with_unfolding_all rfl), ?_⟩
  exact c9_zero_speed_stall mockPrims cfgC 1 sHover
    (of_decide_eq_true (by with_unfolding_all rfl))
    (fun x => by constructor <;> norm_num [mockPrims])
    (of_decide_eq_true (by with_unfolding_all rfl))
    (of_decide_eq_true (by with_unfolding_all rfl))

theorem quatMul_qId_left (q : Quat) : quatMul qId q = q := by
  cases q
  simp [quatMul, qId]

theorem vneg_vzero : vneg vzero = vzero := by simp [vneg, vzero]

theorem vsmul_vzero (k : ℚ) : vsmul vzero k = vzero := by simp [vsmul, vzero]

theorem vsmul_zero_right (a : Vec3) : vsmul a 0 = vzero := by simp [vsmul, vzero]

theorem rz_zero (e : ℚ) : rz e 0 = 0 := by simp [rz]

theorem roundToZero_vzero (e : ℚ) : roundToZero e vzero = vzero := by
  simp [roundToZero, rz, vzero]

theorem vaddScaled_vzero (p : Vec3) (k : ℚ) : vaddScaled p vzero k = p := by
  simp [vaddScaled, vzero]

theorem vnormalize_vzero (P : Prims) : vnormalize P vzero = vzero := by
  show (if vlength P vzero = 0 then vzero else vdivScalar vzero (vlength P vzero)) = vzero
  split <;> simp [vdivScalar, vzero]

theorem wrapQ_id (H t : ℚ) (h1 : ¬ t > H) (h2 : ¬ t < -H) : wrapQ H t = t := by
  unfold wrapQ
  rw [if_neg h1, if_neg h2]

theorem easeOutCirc_one (P : Prims) (hs1 : P.sqrt 1 = 1) : easeOutCirc P 1 = 1 := by
  unfold easeOutCirc
  have h2 : (1 : ℚ) - (1 - 1) ^ 2 = 1 := by norm_num
  rw [h2, hs1]

theorem c4_rest_step (P : Prims) (cfg : Config) (dt : ℚ) (s : State)
    (hs0 : P.sqrt 0 = 0) (hs1 : P.sqrt 1 = 1)
    (hsin0 : P.sin 0 = 0) (hcos0 : P.cos 0 = 1)
    (heps : 0 < cfg.epsilon) (hdt : 0 < dt)
    (hq : s.q = qId) (hv : s.vel = vzero) (hl : s.landed = true)
    (hy : s.pos.y = cfg.groundClearance)
    (hx : ¬ s.pos.x > cfg.halfSize) (hx2 : ¬ s.pos.x < -cfg.halfSize)
    (hz : ¬ s.pos.z > cfg.halfSize) (hz2 : ¬ s.pos.z < -cfg.halfSize)
    (hr : s.roll = 0) (hp : s.pitch = 0) (hyw : s.yaw = 0) (hth : s.throttle = 0) :
    (step P cfg dt s).q = qId ∧ (step P cfg dt s).pos = s.pos ∧
    (step P cfg dt s).vel = vzero ∧ (step P cfg dt s).landed = true ∧
    (step P cfg dt s).roll = 0 ∧ (step P cfg dt s).pitch = 0 ∧
    (step P cfg dt s).yaw = 0 ∧ (step P cfg dt s).throttle = 0 := by
  have hiz : isZero cfg.epsilon 0 := by simpa [isZero] using heps
  have hfw : forwardV s = ⟨0, 0, 1⟩ := by
    unfold forwardV
    rw [hq]
    with_unfolding_all rfl
  have hup : upV s = ⟨0, 1, 0⟩ := by
    unfold upV
    rw [hq]
    with_unfolding_all rfl
  have hrt : rightV s = ⟨1, 0, 0⟩ := by
    unfold rightV
    rw [hq]
    with_unfolding_all rfl
  have hpf : prjForwardV s = ⟨0, 0, 1⟩ := by
    unfold prjForwardV
    rw [hfw]
    rfl
  have hlsq : vlengthSq vzero = 0 := by with_unfolding_all rfl
  have hsp : speedV P s = 0 := by
    unfold speedV vlength
    rw [hv, hlsq, hs0]
  have hvu : velocityUnitV P s = vzero := by
    unfold velocityUnitV
    rw [hv]
    exact vnormalize_vzero P
  have hlz : vlength P vzero = 0 := by
    unfold vlength
    rw [hlsq, hs0]
  have hnr : ¬ (¬ isZero cfg.epsilon s.roll ∧ s.landed = false) :=
    fun h => h.1 (by rw [hr]; exact hiz)
  have hnp : ¬ (¬ isZero cfg.epsilon s.pitch ∧ ¬ (s.landed = true ∧ s.pitch < 0) ∧
      (s.stall < 0 ∨ (s.pitch < 0 ∧ (upV s).y > 0) ∨ (s.pitch > 0 ∧ (upV s).y < 0))) :=
    fun h => h.1 (by rw [hp]; exact hiz)
  have hny : ¬ (¬ isZero cfg.epsilon s.yaw ∧ ¬ isZero cfg.epsilon (speedV P s)) :=
    fun h => h.1 (by rw [hyw]; exact hiz)
  have hq1 : qAfterRoll P cfg dt s = s.q := by
    unfold qAfterRoll
    rw [if_neg hnr]
  have hq2 : qAfterPitch P cfg dt s = s.q := by
    unfold qAfterPitch
    rw [if_neg hnp, hq1]
  have hq3 : qAfterYaw P cfg dt s = s.q := by
    unfold qAfterYaw
    rw [if_neg hny, hq2]
  have hpu : prjUpV s = vzero := by
    unfold prjUpV
    rw [hup, hpf]
    with_unfolding_all rfl
  have hang : autoYawAngleV P cfg dt s = 0 := by
    unfold autoYawAngleV
    rw [hpu, hlz]
    ring
  have haxis : axisAngleQ P UPW 0 = qId := by
    unfold axisAngleQ
    have h02 : (0 : ℚ) / 2 = 0 := by norm_num
    rw [h02, hsin0, hcos0]
    with_unfolding_all rfl
  have hcond : (-0.99 : ℚ) < (forwardV s).y ∧ (forwardV s).y < 0.99 := by
    rw [hfw]
    exact ⟨of_decide_eq_true (by with_unfolding_all rfl),
      of_decide_eq_true (by with_unfolding_all rfl)⟩
  have hq4 : qAfterAutoYaw P cfg dt s = s.q := by
    unfold qAfterAutoYaw
    rw [if_pos hcond]
    unfold rotateWorld
    rw [hang, haxis, hq3]
    exact quatMul_qId_left s.q
  have hq5 : qAfterRecovery P cfg dt s = s.q := by
    unfold qAfterRecovery
    have hnrec : ¬ (s.stall ≥ 0 ∧ s.landed = false) := by
      rintro ⟨-, h2⟩
      rw [hl] at h2
      exact Bool.noConfusion h2
    rw [if_neg hnrec, hq4]
  have hth0 : thrustV P cfg s = vzero := by
    unfold thrustV
    have h0 : airDensityV P s * MAX_THRUST * s.throttle * DRY_MASS = 0 := by
      rw [hth]
      ring
    rw [h0, vsmul_zero_right, roundToZero_vzero]
  have hdr : dragV P cfg s = vzero := by
    simp only [dragV]
    rw [hvu, vneg_vzero, vsmul_vzero, roundToZero_vzero]
  have heoc : easeOutCirc P
      (1 - clampQ (speedV P s / 256 * (1 - |(forwardV s).y| * (1 - |(rightV s).y|))) 0 1) = 1 := by
    rw [hsp, hfw, hrt]
    have harg : (1 : ℚ) -
        clampQ ((0 : ℚ) / 256 * (1 - |(Vec3.mk 0 0 1).y| * (1 - |(Vec3.mk 1 0 0).y|))) 0 1 = 1 := by
      norm_num [clampQ]
    rw [harg]
    exact easeOutCirc_one P hs1
  have hwt : weightV P s = ⟨0, -196000, 0⟩ := by
    simp only [weightV]
    rw [heoc, hfw]
    with_unfolding_all rfl
  have hforces : forcesV P cfg s = ⟨0, -196000, 0⟩ := by
    unfold forcesV
    rw [hth0, hdr, hwt]
    with_unfolding_all rfl
  have hfric : frictionV P cfg s = vzero := by
    simp only [frictionV]
    rw [if_pos hl, hforces, hsp]
    have hv0 : vsetY (⟨0, -196000, 0⟩ : Vec3) 0 = vzero := by with_unfolding_all rfl
    rw [hv0, hlz]
    rw [if_pos ⟨hiz, of_decide_eq_true (by with_unfolding_all rfl)⟩]
    rw [vneg_vzero, roundToZero_vzero]
  have haccel : accelV P cfg s = ⟨0, rz cfg.roundEps (-(49/5)), 0⟩ := by
    unfold accelV
    rw [hforces, hfric]
    have h1 : vdivScalar (vadd (⟨0, -196000, 0⟩ : Vec3) vzero) DRY_MASS =
        ⟨0, -(49/5), 0⟩ := by with_unfolding_all rfl
    rw [h1]
    unfold roundToZero
    rw [rz_zero]
  have hbend : velAfterBendV P cfg dt s = vzero := by
    simp only [velAfterBendV]
    rw [hsp]
    rw [if_neg (fun h => h hiz)]
    exact hv
  have hvel1 : vel1V P cfg dt s = ⟨0, rz cfg.roundEps (-(49/5)) * dt, 0⟩ := by
    unfold vel1V
    rw [hbend, haccel]
    simp [vaddScaled, vzero]
  have hcases : rz cfg.roundEps (-(49/5)) = 0 ∨ rz cfg.roundEps (-(49/5)) = -(49/5) := by
    unfold rz
    split
    · exact Or.inl rfl
    · exact Or.inr rfl
  have hvel2 : vel2V P cfg dt s = vzero := by
    unfold vel2V
    rw [hvel1]
    rcases hcases with ha | ha <;> rw [ha]
    · rw [if_neg]
      · simp [vzero]
      · rintro ⟨-, hlt⟩
        rw [show ((⟨0, (0 : ℚ) * dt, 0⟩ : Vec3)).y = 0 * dt from rfl, zero_mul] at hlt
        exact lt_irrefl 0 hlt
    · rw [if_pos ⟨hl, by show -(49/5 : ℚ) * dt < 0; nlinarith⟩]
      rfl
  have hvel3 : vel3V P cfg dt s = vzero := by
    unfold vel3V
    rw [hvel2]
    exact roundToZero_vzero _
  have hpm : posMidV P cfg dt s = s.pos := by
    unfold posMidV
    rw [hvel3]
    exact vaddScaled_vzero s.pos dt
  have hncond : ¬ (posMidV P cfg dt s).y < cfg.groundClearance := by
    rw [hpm, hy]
    exact lt_irrefl _
  unfold step
  rw [if_neg hncond]
  refine ⟨?_, ?_, hvel3, ?_, hr, hp, hyw, hth⟩
  · show qAfterRecovery P cfg dt s = qId
    rw [hq5, hq]
  · show wrapPos cfg (posMidV P cfg dt s) = s.pos
    rw [hpm]
    unfold wrapPos
    rw [wrapQ_id _ _ hx hx2, wrapQ_id _ _ hz hz2]
  · show landedMidV P cfg dt s = true
    unfold landedMidV
    rw [hpm, hy, if_neg (lt_irrefl _)]
    exact hl

/-- C4 (amended).  Starting a tick landed, at rest (`velocity = 0`),
`throttle = 0`, zero control inputs, altitude exactly the ground clearance,
AND with a level orientation (identity quaternion): one call to `step`
(and, by induction, any number of calls) leaves position, orientation and
velocity unchanged and `landed` true — for a level attitude the residual
horizontal force is zero, below the static-friction threshold, and the
vertical force is cancelled by the landed vertical cut.  (The original
claim, with the attitude unconstrained, is refuted by the pitched-up
counterexample: there the residual horizontal force exceeds the static
threshold and the aircraft slides.)  The primitive hypotheses
(`sqrt 0 = 0`, `sqrt 1 = 1`, `sin 0 = 0`, `cos 0 = 1`) hold of the real
functions. -/
theorem c4_ground_stick_amended (P : Prims) (cfg : Config) (dt : ℚ) (s : State)
    (hs0 : P.sqrt 0 = 0) (hs1 : P.sqrt 1 = 1)
    (hsin0 : P.sin 0 = 0) (hcos0 : P.cos 0 = 1)
    (heps : 0 < cfg.epsilon) (hdt : 0 < dt)
    (hq : s.q = qId) (hv : s.vel = vzero) (hl : s.landed = true)
    (hy : s.pos.y = cfg.groundClearance)
    (hx : ¬ s.pos.x > cfg.halfSize) (hx2 : ¬ s.pos.x < -cfg.halfSize)
    (hz : ¬ s.pos.z > cfg.halfSize) (hz2 : ¬ s.pos.z < -cfg.halfSize)
    (hr : s.roll = 0) (hp : s.pitch = 0) (hyw : s.yaw = 0) (hth : s.throttle = 0) :
    ∀ n : ℕ,
      ((step P cfg dt)^[n] s).q = qId ∧ ((step P cfg dt)^[n] s).pos = s.pos ∧
      ((step P cfg dt)^[n] s).vel = vzero ∧ ((step P cfg dt)^[n] s).landed = true ∧
      ((step P cfg dt)^[n] s).roll = 0 ∧ ((step P cfg dt)^[n] s).pitch = 0 ∧
      ((step P cfg dt)^[n] s).yaw = 0 ∧ ((step P cfg dt)^[n] s).throttle = 0 := by
  intro n
  induction n with
  | zero => exact ⟨hq, rfl, hv, hl, hr, hp, hyw, hth⟩
  | succ n ih =>
    obtain ⟨ihq, ihpos, ihv, ihl, ihr, ihp, ihyw, ihth⟩ := ih
    have hstep := c4_rest_step P cfg dt ((step P cfg dt)^[n] s) hs0 hs1 hsin0 hcos0
      heps hdt ihq ihv ihl
      (by rw [ihpos]; exact hy)
      (by rw [ihpos]; exact hx) (by rw [ihpos]; exact hx2)
      (by rw [ihpos]; exact hz) (by rw [ihpos]; exact hz2)
      ihr ihp ihyw ihth
    rw [Function.iterate_succ_apply']
    exact ⟨hstep.1, hstep.2.1.trans ihpos, hstep.2.2.1, hstep.2.2.2.1,
      hstep.2.2.2.2.1, hstep.2.2.2.2.2.1, hstep.2.2.2.2.2.2.1, hstep.2.2.2.2.2.2.2⟩

/-- C4, witness: the level rest state is a fixed point of the integrator
(shown here for three consecutive ticks under the sample configuration). -/
theorem c4_ground_stick_amended_witness :
    sRest.landed = true ∧ sRest.vel = vzero ∧ sRest.throttle = 0 ∧
    sRest.pos.y = cfgC.groundClearance ∧
    ((step mockPrims cfgC 1)^[3] sRest).pos = sRest.pos ∧
    ((step mockPrims cfgC 1)^[3] sRest).q = qId ∧
    ((step mockPrims cfgC 1)^[3] sRest).vel = vzero ∧
    ((step mockPrims cfgC 1)^[3] sRest).landed = true := by
  have h := c4_ground_stick_amended mockPrims cfgC 1 sRest
    (of_decide_eq_true (by with_unfolding_all rfl))
    (of_decide_eq_true (by with_unfolding_all rfl))
    rfl rfl
    (of_decide_eq_true (by with_unfolding_all rfl)) one_pos
    rfl rfl rfl
    (of_decide_eq_true (by with_unfolding_all rfl))
    (of_decide_eq_true (by with_unfolding_all rfl))
    (of_decide_eq_true (by with_unfolding_all rfl))
    (of_decide_eq_true (by with_unfolding_all rfl))
    (of_decide_eq_true (by with_unfolding_all rfl))
    rfl rfl rfl rfl 3
  exact ⟨rfl, rfl, rfl, of_decide_eq_true (by with_unfolding_all rfl),
    h.2.1, h.1, h.2.2.1, h.2.2.2.1⟩

/-- C4, counterexample to the claim as stated: a landed, at-rest, idle
aircraft at the clearance altitude whose nose is pitched up by the rational
rotation with `sin = 120/169` satisfies every hypothesis of the claim, yet
one tick leaves it with a non-zero velocity (the residual horizontal force
`|weight.z| ≈ 0.5·m·g` exceeds the static-friction threshold `0.3·m·g`, no
static sticking occurs, and the aircraft starts to slide), refuting
"velocity remains (0,0,0)". -/
theorem c4_counterexample :
    sNoseUpRest.landed = true ∧ sNoseUpRest.vel = vzero ∧
    sNoseUpRest.throttle = 0 ∧ sNoseUpRest.roll = 0 ∧ sNoseUpRest.pitch = 0 ∧
    sNoseUpRest.yaw = 0 ∧ sNoseUpRest.pos.y = cfgC.groundClearance ∧
    (step mockPrims cfgC 1 sNoseUpRest).vel ≠ vzero :=
  of_decide_eq_true (by with_unfolding_all rfl)
